import Mathlib

/-!
Shallow embedding of `src/app/Services/Python/python_script.py`
(loudspeaker frequency-response engine) and proofs about it.

Conventions of the embedding:
* Python floats become `ℝ`, Python complex numbers become `ℂ`.
* numpy/scipy special functions with no Mathlib counterpart
  (`scipy.special.jv 1`, `mpmath.struveh 1`, `scipy.special.hyp2f1`)
  are abstracted as fields of a `SpecialFuns` record; every theorem below is
  proved for an arbitrary record, so it holds whatever those functions are.
* A Python dict of input parameters becomes a record of `Option ℝ` fields;
  a `KeyError` on a missing key is modelled by the `Option` being `none`.
* `Loudspeaker.calculate_wave_number` is NaN at `f = 0` in the source
  (division by zero fed into a fractional power); the embedding returns an
  `Option ℂ` that is `none` there.  The ported-box tuning frequency `fb`
  is undefined when the port volume reaches the box volume (`Vp/Vab` raises
  `ZeroDivisionError` at `Vab = 0`, and `np.sqrt` of the negative ratio is
  NaN for `Vab < 0`; likewise `c/(2π·t)` raises at `t = 0`), so it is an
  `Option ℝ`; the leakage resistance propagates that undefinedness
  (`7/NaN = NaN`), and on the defined path it is `7/(2π·fb·Cab)` with
  `Cab = 0`, i.e. `7/±0.0 = ±inf` in numpy float semantics, embedded in
  `ENNReal` where division of a nonzero value by zero is `⊤` (the sign of
  the infinity is immaterial downstream: `1/±inf = ±0.0` and the shunt
  entry is `0` either way).
-/

noncomputable section

/-- Speed of sound in air, m/s (module constant `SOUND_CELERITY`). -/
def SOUND_CELERITY : ℝ := 344.8

/-- Air density, kg/m³ (module constant `R_0`). -/
def R_0 : ℝ := 1.18

/-- Atmospheric pressure, Pa (module constant `P_0 = 10**5`). -/
def P_0 : ℝ := 10 ^ (5 : ℕ)

/-- Adiabatic index (module constant `GAMMA`). -/
def GAMMA : ℝ := 1.4

/-- Reference sound pressure, Pa (module constant `P_REF = 20 * 10**(-6)`). -/
def P_REF : ℝ := 20 * 10 ^ (-(6 : ℤ))

/-- Viscosity coefficient, N·s/m² (module constant `m = 1.86e-5`). -/
def m_visc : ℝ := 1.86 * 10 ^ (-(5 : ℤ))

/-- Fiber diameter, m (module constant `R = 60e-6`). -/
def R_fiber : ℝ := 60 * 10 ^ (-(6 : ℤ))

/-- Molecular mean free path, m (module constant `LM = 6e-8`). -/
def LM : ℝ := 6 * 10 ^ (-(8 : ℤ))

/-- Porosity (module constant `POROSITY`). -/
def POROSITY : ℝ := 0.99

/-- Flow velocity in the material, m/s (module constant `U`). -/
def U_flow : ℝ := 0.03

/-- Wave-number coefficient `A3`. -/
def A3 : ℝ := 0.0858

/-- Wave-number coefficient `A4`. -/
def A4 : ℝ := 0.175

/-- Wave-number coefficient `B3`. -/
def B3 : ℝ := 0.7

/-- Wave-number coefficient `B4`. -/
def B4 : ℝ := 0.59

/-- Abstract interface for the special functions imported from
scipy/mpmath that have no Mathlib counterpart:
`besselJ1 z` is `scipy.special.jv 1 z`, `struveH1 z` is `mpmath.struveh 1 z`,
`hyp2f1 a b c x` is `scipy.special.hyp2f1 a b c x`. -/
structure SpecialFuns where
  besselJ1 : ℂ → ℂ
  struveH1 : ℂ → ℂ
  hyp2f1 : ℝ → ℝ → ℝ → ℝ → ℝ

/-- Flow resistance of lining material (`Loudspeaker.calculate_R_f`);
it only reads module constants, so it is a fixed scalar. -/
def calculate_R_f : ℝ :=
  ((4 * m_visc * (1 - POROSITY)) / (POROSITY * R_fiber ^ 2)) *
    ((1 - 4 / Real.pi * (1 - POROSITY)) /
        (2 + Real.log ((m_visc * POROSITY) / (2 * R_fiber * R_0 * U_flow)))
      + (6 / Real.pi) * (1 - POROSITY))

/-- The wave-number formula of `Loudspeaker.calculate_wave_number` for `f > 0`:
`k = (2πf/c) * ((1 + A3 (R_f/f)^B3) - i A4 (R_f/f)^B4)`.
It only reads module constants and `R_f` (itself a module-level scalar),
so it does not depend on the loudspeaker instance. -/
def waveNumber (f : ℝ) : ℂ :=
  ((2 * Real.pi * f / SOUND_CELERITY : ℝ) : ℂ) *
    (((1 + A3 * (calculate_R_f / f) ^ (B3 : ℝ) : ℝ) : ℂ) -
      Complex.I * ((A4 * (calculate_R_f / f) ^ (B4 : ℝ) : ℝ) : ℂ))

/-- `Loudspeaker.calculate_wave_number`.  For `f ≤ 0` the source divides
`R_f` by zero (or produces a fractional power of a negative number) and the
IEEE result is NaN, i.e. not a finite complex number; this is modelled by
`none`. -/
def calculate_wave_number (f : ℝ) : Option ℂ :=
  if 0 < f then some (waveNumber f) else none

/-- The fields of the Python `Loudspeaker` object after `__init__`
(unit conversions applied). -/
structure Loudspeaker where
  Re : ℝ
  Le : ℝ
  Znom : ℝ
  e_g : ℝ
  Qes : ℝ
  Qms : ℝ
  fs : ℝ
  Vas : ℝ
  Cms : ℝ
  Mms : ℝ
  Bl : ℝ
  Sd : ℝ
  a : ℝ
  Rms : ℝ
  Rg : ℝ
  Qts : ℝ
  Mmd : ℝ
  k_const : ℝ
  R_f : ℝ

/-- Body of `Loudspeaker.__init__` once every key of `lsp_par` has been
read successfully: unit conversions and derived parameters, line by line
(fields in declaration order of the structure above). -/
def Loudspeaker.ofVals (re le z qes qms fs vas cms mms bl sd rms : ℝ) :
    Loudspeaker :=
  ⟨re, le / 1000, z, Real.sqrt z, qes, qms, fs, vas / 1000, cms / 1000000,
    mms / 1000, bl, sd / 10000, Real.sqrt ((sd / 10000) / Real.pi), rms, 0.75,
    (qes * qms) / (qes + qms),
    mms / 1000 - 16 * R_0 * Real.sqrt ((sd / 10000) / Real.pi) ^ 3 / 3,
    2 * Real.pi / SOUND_CELERITY, calculate_R_f⟩

/-- The input parameter dictionary: a value of `none` models a missing key
(whose read raises `KeyError` in the source). -/
structure Params where
  re : Option ℝ
  le : Option ℝ
  z : Option ℝ
  qes : Option ℝ
  qms : Option ℝ
  fs : Option ℝ
  vas : Option ℝ
  cms : Option ℝ
  mms : Option ℝ
  bl : Option ℝ
  sd : Option ℝ
  rms : Option ℝ
  lx : Option ℝ
  ly : Option ℝ
  lz : Option ℝ
  port_length : Option ℝ
  port_section_aeria : Option ℝ
  scenario : Option String
  port_diagram_response : Bool

/-- `Loudspeaker.__init__` reads the keys `re, le, z, qes, qms, fs, vas,
cms, mms, bl, sd, rms` of its parameter dict; if any is absent the
constructor raises `KeyError` (modelled by `none`). -/
def Loudspeaker.init (p : Params) : Option Loudspeaker :=
  match p.re, p.le, p.z, p.qes, p.qms, p.fs, p.vas, p.cms, p.mms, p.bl,
      p.sd, p.rms with
  | some re, some le, some z, some qes, some qms, some fs, some vas,
      some cms, some mms, some bl, some sd, some rms =>
    some (Loudspeaker.ofVals re le z qes qms fs vas cms mms bl sd rms)
  | _, _, _, _, _, _, _, _, _, _, _, _ => none

/-- 2×2 complex matrix, as produced by `np.array([[...],[...]])` in the
transmission-matrix code. -/
structure M2 where
  a11 : ℂ
  a12 : ℂ
  a21 : ℂ
  a22 : ℂ

/-- `np.dot` on 2×2 matrices. -/
def M2.mul (X Y : M2) : M2 :=
  ⟨X.a11 * Y.a11 + X.a12 * Y.a21, X.a11 * Y.a12 + X.a12 * Y.a22,
    X.a21 * Y.a11 + X.a22 * Y.a21, X.a21 * Y.a12 + X.a22 * Y.a22⟩

/-- The 2×2 identity matrix. -/
def M2.one : M2 := ⟨1, 0, 0, 1⟩

/-- `i`-th point of `np.logspace(np.log10(20), np.log10(20000), 500)`. -/
def freqAt (i : ℕ) : ℝ :=
  (10 : ℝ) ^ (Real.logb 10 20 +
    (i : ℝ) * ((Real.logb 10 20000 - Real.logb 10 20) / 499))

/-- The frequency grid `np.logspace(np.log10(20), np.log10(20000), 500)`. -/
def frequencies : List ℝ := (List.range 500).map freqAt

/-- `OpenAir.calculate_impedance`. -/
def OpenAir.calculate_impedance (lsp : Loudspeaker) (f : ℝ) : ℝ :=
  let omega : ℝ := 2 * Real.pi * f
  let Zes : ℂ := (lsp.Re : ℂ) + Complex.I * (omega : ℂ) * (lsp.Le : ℂ)
  let Zem : ℂ := ((lsp.Bl ^ 2 / lsp.Rms : ℝ) : ℂ) *
    (Complex.I / (lsp.Qms : ℂ) * (f : ℂ) / (lsp.fs : ℂ) /
      (1 - ((f ^ 2 / lsp.fs ^ 2 : ℝ) : ℂ) +
        Complex.I / (lsp.Qms : ℂ) * (f : ℂ) / (lsp.fs : ℂ)))
  let Ze : ℂ := Zes + Zem
  Complex.abs Ze

/-- The total electro-mechanical impedance `Z_MT` of `OpenAir.calculate_spl`
(the open-air branch uses the lossless real wave number `k = ω/c`). -/
def OpenAir.Z_MT (sf : SpecialFuns) (lsp : Loudspeaker) (f : ℝ) : ℂ :=
  let omega : ℝ := 2 * Real.pi * f
  let k : ℝ := omega / SOUND_CELERITY
  let J1 : ℂ := sf.besselJ1 ((2 * k * lsp.a : ℝ) : ℂ)
  let H1 : ℂ := sf.struveH1 ((2 * k * lsp.a : ℝ) : ℂ)
  ((lsp.Bl ^ 2 : ℝ) : ℂ) /
      (((lsp.Rg + lsp.Re : ℝ) : ℂ) + Complex.I * (omega : ℂ) * (lsp.Le : ℂ)) +
    Complex.I * (omega : ℂ) * (lsp.Mmd : ℂ) + (lsp.Rms : ℂ) +
    1 / (Complex.I * (omega : ℂ) * (lsp.Cms : ℂ)) +
    ((2 * lsp.Sd * R_0 * SOUND_CELERITY : ℝ) : ℂ) *
      (1 - J1 / ((k * lsp.a : ℝ) : ℂ) +
        Complex.I * H1 / ((k * lsp.a : ℝ) : ℂ))

/-- The complex diaphragm velocity `e_g·Bl/((Rg+Re+iωLe)·Z_MT)` whose
magnitude is `u_c` in `OpenAir.calculate_spl`. -/
def OpenAir.velocity (sf : SpecialFuns) (lsp : Loudspeaker) (f : ℝ) : ℂ :=
  let omega : ℝ := 2 * Real.pi * f
  ((lsp.e_g * lsp.Bl : ℝ) : ℂ) /
    ((((lsp.Rg + lsp.Re : ℝ) : ℂ) + Complex.I * (omega : ℂ) * (lsp.Le : ℂ)) *
      OpenAir.Z_MT sf lsp f)

/-- `u_c` of `OpenAir.calculate_spl` (magnitude of the diaphragm
velocity). -/
def OpenAir.u_c (sf : SpecialFuns) (lsp : Loudspeaker) (f : ℝ) : ℝ :=
  Complex.abs (OpenAir.velocity sf lsp f)

/-- `OpenAir.calculate_spl`. -/
def OpenAir.calculate_spl (sf : SpecialFuns) (lsp : Loudspeaker) (f : ℝ) :
    ℝ :=
  let u_c : ℝ := OpenAir.u_c sf lsp f
  let p_rms : ℝ := R_0 * f * lsp.Sd * u_c
  20 * Real.logb 10 (p_rms / P_REF)

/-- Electrical impedance `Z_e = Re + i·2πf·Le`, computed identically in the
`calculate_impedance`/`calculate_spl` methods of both enclosure classes. -/
def electrical_impedance (lsp : Loudspeaker) (f : ℝ) : ℂ :=
  (lsp.Re : ℂ) + Complex.I * ((2 * Real.pi * f : ℝ) : ℂ) * (lsp.Le : ℂ)

/-- Mechanical impedance `Z_md = i·2πf·Mmd + Rms + 1/(i·2πf·Cms)` with
`Mmd = Mms - 16·ρ₀·a³/3` recomputed locally, identical in the enclosure
methods. -/
def mechanical_impedance (lsp : Loudspeaker) (f : ℝ) : ℂ :=
  let Mmd : ℝ := lsp.Mms - 16 * R_0 * lsp.a ^ 3 / 3
  Complex.I * ((2 * Real.pi * f : ℝ) : ℂ) * (Mmd : ℂ) + (lsp.Rms : ℂ) +
    1 / (Complex.I * ((2 * Real.pi * f : ℝ) : ℂ) * (lsp.Cms : ℂ))

/-- `calculate_diaphragm_radiation_impedance`, the identical method of
`SealedBoxEnclosure` and `PortedBoxEnclosure` (Eq. 13.116-13.118): it uses
the lossy wave number and the driver radius. -/
def calculate_diaphragm_radiation_impedance (sf : SpecialFuns)
    (lsp : Loudspeaker) (f : ℝ) : ℂ :=
  let k : ℂ := waveNumber f
  let H1 : ℂ := sf.struveH1 (2 * k * (lsp.a : ℂ))
  let R_sp : ℂ := (R_0 : ℂ) * (SOUND_CELERITY : ℂ) *
    (1 - sf.besselJ1 (2 * k * (lsp.a : ℂ)) / (k * (lsp.a : ℂ)))
  let X_sp : ℂ := (R_0 : ℂ) * (SOUND_CELERITY : ℂ) * (H1 / (k * (lsp.a : ℂ)))
  R_sp + Complex.I * X_sp

/-- The fields of the Python `SealedBoxEnclosure` object after
`__init__` (cm → m conversions applied, `Vb = lx·ly·lz`). -/
structure SealedBoxEnclosure where
  lsp : Loudspeaker
  lx : ℝ
  ly : ℝ
  lz : ℝ
  Vb : ℝ

/-- `SealedBoxEnclosure.__init__`. -/
def SealedBoxEnclosure.init (lsp : Loudspeaker) (lx ly lz : ℝ) :
    SealedBoxEnclosure :=
  ⟨lsp, lx * 0.01, ly * 0.01, lz * 0.01,
    (lx * 0.01) * (ly * 0.01) * (lz * 0.01)⟩

/-- `SealedBoxEnclosure.calculate_simplified_box_impedance_Zab`
(`Bc` is the parameter named `B` in the source). -/
def SealedBoxEnclosure.calculate_simplified_box_impedance_Zab
    (box : SealedBoxEnclosure) (f Bc : ℝ) : ℂ :=
  let Va : ℝ := 3 / 4 * box.Vb
  let Vm : ℝ := box.Vb / 4
  let Mab : ℝ := Bc * R_0 / (Real.pi * box.lsp.a)
  let CAA : ℝ := Va / (1.4 * P_0)
  let CAM : ℝ := Vm / P_0
  let Xab : ℝ := 2 * Real.pi * f * Mab - 1 / (2 * Real.pi * f * (CAA + CAM))
  let Ram : ℝ := R_0 * SOUND_CELERITY / (box.lx * box.ly)
  let Rab : ℝ := Ram /
    ((1 + Va / (1.4 * Vm)) ^ 2 + (2 * Real.pi * f) ^ 2 * Ram ^ 2 * CAA ^ 2)
  (Rab : ℂ) + Complex.I * (Xab : ℂ)

/-- The composite transmission matrix `A = C·E·D·M·F·B` built (twice,
identically) inside `SealedBoxEnclosure.calculate_impedance` and
`SealedBoxEnclosure.calculate_spl`. -/
def SealedBoxEnclosure.systemMatrix (sf : SpecialFuns)
    (box : SealedBoxEnclosure) (f : ℝ) : M2 :=
  let Z_e : ℂ := electrical_impedance box.lsp f
  let Z_md : ℂ := mechanical_impedance box.lsp f
  let Z_a2 : ℂ := calculate_diaphragm_radiation_impedance sf box.lsp f
  let Zab : ℂ := box.calculate_simplified_box_impedance_Zab f 0.46
  let Cm : M2 := ⟨1, Z_e, 0, 1⟩
  let Em : M2 := ⟨0, (box.lsp.Bl : ℂ), 1 / (box.lsp.Bl : ℂ), 0⟩
  let Dm : M2 := ⟨1, Z_md, 0, 1⟩
  let Mm : M2 := ⟨(box.lsp.Sd : ℂ), 0, 0, 1 / (box.lsp.Sd : ℂ)⟩
  let Fm : M2 := ⟨1, Z_a2, 0, 1⟩
  let Bm : M2 := ⟨1, 0, 1 / Zab, 1⟩
  ((((Cm.mul Em).mul Dm).mul Mm).mul Fm).mul Bm

/-- `SealedBoxEnclosure.calculate_impedance`: magnitude of
`Z_tot = a11/a21`. -/
def SealedBoxEnclosure.calculate_impedance (sf : SpecialFuns)
    (box : SealedBoxEnclosure) (f : ℝ) : ℝ :=
  let A := SealedBoxEnclosure.systemMatrix sf box f
  Complex.abs (A.a11 / A.a21)

/-- `SealedBoxEnclosure.calculate_spl` (only the data flow reaching the
returned SPL is kept: the locals `response`, `Ze`, `power` of the source
are dead code for the return value). -/
def SealedBoxEnclosure.calculate_spl (sf : SpecialFuns)
    (box : SealedBoxEnclosure) (f : ℝ) : ℝ :=
  let A := SealedBoxEnclosure.systemMatrix sf box f
  let Zab : ℂ := box.calculate_simplified_box_impedance_Zab f 0.46
  let p_6 : ℂ := (box.lsp.e_g : ℂ) / A.a11
  let U_c : ℂ := p_6 / Zab
  let prms : ℂ := (R_0 : ℂ) * (f : ℂ) * U_c
  20 * Real.logb 10 (Complex.abs prms / |(20e-6 : ℝ)|)

/-- The fields of the Python `PortedBoxEnclosure` object after `__init__`
(unit conversions applied; `Va` and `Vm` are fixed at `0.0` by the
constructor). -/
structure PortedBoxEnclosure where
  lsp : Loudspeaker
  lx : ℝ
  ly : ℝ
  lz : ℝ
  port_length : ℝ
  port_section_aeria : ℝ
  truncation_limit : ℕ
  r : ℝ
  Vb : ℝ
  Sp : ℝ
  Vp : ℝ
  Vab : ℝ
  Va : ℝ
  Vm : ℝ

/-- `PortedBoxEnclosure.__init__`. -/
def PortedBoxEnclosure.init (lsp : Loudspeaker) (lx ly lz pl psa : ℝ) :
    PortedBoxEnclosure :=
  ⟨lsp, lx * 0.01, ly * 0.01, lz * 0.01, pl * 0.01, psa * 0.0001, 5, 0.15,
    (lx * 0.01) * (ly * 0.01) * (lz * 0.01), psa * 0.0001,
    (psa * 0.0001) * (pl * 0.01),
    (lx * 0.01) * (ly * 0.01) * (lz * 0.01) - (psa * 0.0001) * (pl * 0.01),
    0, 0⟩

/-- `PortedBoxEnclosure.calculate_port`: returns `(Sp, t, fb)` with the
Helmholtz tuning frequency `fb = (c/(2π·t))·√(Vp/Vab)`.  `fb` has no
finite value when `t = 0` (the pure-float `c/(2π·t)` raises
`ZeroDivisionError`), when `Vab = 0` (`Vp/Vab` raises `ZeroDivisionError`)
or when `Vp/Vab < 0` (`np.sqrt` of a negative ratio is NaN); these paths
are modelled by `none`. -/
def PortedBoxEnclosure.calculate_port (box : PortedBoxEnclosure) :
    ℝ × ℝ × Option ℝ :=
  (box.Sp, box.port_length,
    if box.port_length = 0 ∨ box.Vab = 0 ∨ box.Vp / box.Vab < 0 then none
    else
      some ((SOUND_CELERITY / (2 * Real.pi * box.port_length)) *
        Real.sqrt (box.Vp / box.Vab)))

/-- `PortedBoxEnclosure.calculate_leakage_resistance`:
`Ral = 7/(2π·fb·Cab)`.  When `fb` has no finite value the product
`2π·fb·Cab` is NaN (or the exception has already aborted the call), so
`Ral` is NaN too: `none`.  On the defined path the source always has
`Cab = 0` (the constructor pins `Va = Vm = 0`), so `7` is divided by
`±0.0` and numpy yields an infinite resistance, modelled by `⊤` of
`ENNReal` (the sign of that infinity never matters: downstream only
`1/Ral`, which is `±0.0`, is used). -/
def PortedBoxEnclosure.calculate_leakage_resistance
    (box : PortedBoxEnclosure) : Option ENNReal :=
  let CAA : ℝ := box.Va / (GAMMA * P_0)
  let CAM : ℝ := box.Vm / P_0
  let Cab : ℝ := CAA + GAMMA * CAM
  match (box.calculate_port).2.2 with
  | none => none
  | some fb => some ((7 : ENNReal) / ENNReal.ofReal (2 * Real.pi * fb * Cab))

/-- `PortedBoxEnclosure.calculate_simplified_box_impedance_Zab`
(identical formula to the sealed-box method). -/
def PortedBoxEnclosure.calculate_simplified_box_impedance_Zab
    (box : PortedBoxEnclosure) (f Bc : ℝ) : ℂ :=
  let Va : ℝ := 3 / 4 * box.Vb
  let Vm : ℝ := box.Vb / 4
  let Mab : ℝ := Bc * R_0 / (Real.pi * box.lsp.a)
  let CAA : ℝ := Va / (1.4 * P_0)
  let CAM : ℝ := Vm / P_0
  let Xab : ℝ := 2 * Real.pi * f * Mab - 1 / (2 * Real.pi * f * (CAA + CAM))
  let Ram : ℝ := R_0 * SOUND_CELERITY / (box.lx * box.ly)
  let Rab : ℝ := Ram /
    ((1 + Va / (1.4 * Vm)) ^ 2 + (2 * Real.pi * f) ^ 2 * Ram ^ 2 * CAA ^ 2)
  (Rab : ℂ) + Complex.I * (Xab : ℂ)

/-- Normalized sinc `np.sinc x = sin(πx)/(πx)` (value `1` at `x = 0`),
extended to complex arguments as numpy does elementwise. -/
def nsinc (z : ℂ) : ℂ :=
  if z = 0 then 1 else Complex.sin ((Real.pi : ℂ) * z) / ((Real.pi : ℂ) * z)

/-- `PortedBoxEnclosure.gmn`, helper for the rectangular port impedance
(Eq. 13.337).  The loop bounds `range(n, m+1)` and `range(m-n, m+1)`
become `Finset.Icc`. -/
def gmn (m n : ℕ) (q : ℝ) : ℝ :=
  let first_sum : ℝ := (Finset.Icc n m).sum (fun p =>
    ((-1 : ℝ)) ^ (p - n) * q ^ (2 * (n : ℤ) - 1) /
        ((2 * (p : ℝ) - 1) * (1 + q ^ 2) ^ ((p : ℝ) - 1 / 2)) *
      (Nat.choose (m - n) (p - n) : ℝ))
  let first_term : ℝ := (Nat.choose (2 * m + 3) (2 * n) : ℝ) * first_sum
  let second_sum : ℝ := (Finset.Icc (m - n) m).sum (fun p =>
    (Nat.choose (p + n - m) n : ℝ) * ((-1 : ℝ)) ^ (p + n - m) *
        q ^ (2 * n + 2) /
      ((2 * (p : ℝ) - 1) * (1 + q ^ (-2 : ℤ)) ^ ((p : ℝ) - 1 / 2)))
  let second_term : ℝ :=
    (Nat.choose (2 * m + 3) (2 * n + 3) : ℝ) * second_sum
  first_term + second_term

/-- `PortedBoxEnclosure.fm`, helper for the rectangular port impedance
(Eq. 13.337), built from two hypergeometric evaluations and `gmn`. -/
def fm (sf : SpecialFuns) (q : ℝ) (m : ℕ) : ℝ :=
  let result1 : ℝ := sf.hyp2f1 1 ((m : ℝ) + 0.5) ((m : ℝ) + 1.5)
    (1 / (1 + q ^ 2))
  let result2 : ℝ := sf.hyp2f1 1 ((m : ℝ) + 0.5) ((m : ℝ) + 1.5)
    (1 / (1 + q ^ (-2 : ℤ)))
  let sum_fm : ℝ := (Finset.range (m + 1)).sum (fun n => gmn m n q)
  (result1 + result2) /
      ((2 * (m : ℝ) + 1) * (1 + q ^ (-2 : ℤ)) ^ ((m : ℝ) + 0.5)) +
    (1 / (2 * (m : ℝ) + 3)) * sum_fm

/-- `PortedBoxEnclosure.calculate_port_impedance_Za2` (Eq. 13.336-13.337):
truncated double series for the resistive part and truncated series plus
sinc near-field correction for the reactive part. -/
def PortedBoxEnclosure.calculate_port_impedance_Za2 (sf : SpecialFuns)
    (box : PortedBoxEnclosure) (f : ℝ) (r_d : ℂ) : ℂ :=
  let q : ℝ := box.lx / box.ly
  let k : ℂ := waveNumber f
  let sum_Rs : ℂ := (Finset.range (box.truncation_limit + 1)).sum (fun m =>
    (Finset.range (box.truncation_limit + 1)).sum (fun n =>
      ((((-1 : ℝ)) ^ (m + n) /
          ((2 * (m : ℝ) + 1) * (2 * (n : ℝ) + 1) *
            (Nat.factorial (m + 1) : ℝ) * (Nat.factorial (n + 1) : ℝ) *
            Real.Gamma ((m : ℝ) + (n : ℝ) + 3 / 2)) : ℝ) : ℂ) *
        (k * (box.lx : ℂ) / 2) ^ (2 * m + 1) *
        (k * (box.ly : ℂ) / 2) ^ (2 * n + 1)))
  let Rs_a2 : ℂ := ((R_0 * SOUND_CELERITY / Real.sqrt Real.pi : ℝ) : ℂ) *
    sum_Rs
  let sum_Xs : ℂ := (Finset.range (box.truncation_limit + 1)).sum (fun m =>
    ((((-1 : ℝ)) ^ m * fm sf q m /
        ((2 * (m : ℝ) + 1) * (Nat.factorial m : ℝ) *
          (Nat.factorial (m + 1) : ℝ)) : ℝ) : ℂ) *
      (k * (box.lx : ℂ) / 2) ^ (2 * m + 1))
  let Xs_a2 : ℂ := (2 * r_d * (SOUND_CELERITY : ℂ) /
      ((Real.sqrt Real.pi : ℝ) : ℂ)) *
    ((1 - nsinc (k * (box.lx : ℂ))) / ((q : ℂ) * k * (box.lx : ℂ)) +
      (1 - nsinc ((q : ℂ) * k * (box.lx : ℂ))) / (k * (box.lx : ℂ)) +
      sum_Xs)
  (Rs_a2 + Complex.I * Xs_a2) / (box.Sp : ℂ)

/-- The complex loss factor `ξ = 0.998 + 0.001j` of the port line. -/
def port_xi : ℂ := 0.998 + 0.001 * Complex.I

/-- The port propagation constant `kp = 2πf·ξ/c`. -/
def port_kp (f : ℝ) : ℂ :=
  ((2 * Real.pi * f : ℝ) : ℂ) * port_xi / (SOUND_CELERITY : ℂ)

/-- The port characteristic impedance `Zp = ρ₀·c·ξ/Sp`. -/
def PortedBoxEnclosure.Zp (box : PortedBoxEnclosure) : ℂ :=
  (R_0 : ℂ) * (SOUND_CELERITY : ℂ) * port_xi / (box.Sp : ℂ)

/-- The boundary-layer value `r_d` used by the reactive port series:
`r_d = -8ρ₀/((1+4Bu)·kv²·ap²)` with `kv = √(-i·2πf·ρ₀/m)` (numpy complex
principal square root, i.e. `z^(1/2)`). -/
def PortedBoxEnclosure.r_d (box : PortedBoxEnclosure) (f : ℝ) : ℂ :=
  let ap : ℝ := Real.sqrt (box.Sp / Real.pi)
  let Kn : ℝ := LM / ap
  let Bu : ℝ := (2 * (0.9 : ℝ) ^ (-1 : ℤ) - 1) * Kn
  let kv : ℂ := ((-Complex.I * (Real.pi : ℂ) * 2 * (f : ℂ) * (R_0 : ℂ)) /
    (m_visc : ℂ)) ^ ((1 : ℂ) / 2)
  (-8 * (R_0 : ℂ)) / ((1 + 4 * (Bu : ℂ)) * kv ^ 2 * ((ap : ℝ) : ℂ) ^ 2)

/-- Stage `C` (electrical source + coil). -/
def PortedBoxEnclosure.stageC (box : PortedBoxEnclosure) (f : ℝ) : M2 :=
  ⟨1, electrical_impedance box.lsp f, 0, 1⟩

/-- Stage `E` (electro-mechanical gyrator `Bl`). -/
def PortedBoxEnclosure.stageE (box : PortedBoxEnclosure) : M2 :=
  ⟨0, (box.lsp.Bl : ℂ), 1 / (box.lsp.Bl : ℂ), 0⟩

/-- Stage `D` (mechanical mass-compliance-resistance). -/
def PortedBoxEnclosure.stageD (box : PortedBoxEnclosure) (f : ℝ) : M2 :=
  ⟨1, mechanical_impedance box.lsp f, 0, 1⟩

/-- Stage `M` (diaphragm area transform `Sd`, `1/Sd`). -/
def PortedBoxEnclosure.stageM (box : PortedBoxEnclosure) : M2 :=
  ⟨(box.lsp.Sd : ℂ), 0, 0, 1 / (box.lsp.Sd : ℂ)⟩

/-- Stage `F` (diaphragm radiation load `Z_a1`). -/
def PortedBoxEnclosure.stageF (sf : SpecialFuns) (box : PortedBoxEnclosure)
    (f : ℝ) : M2 :=
  ⟨1, calculate_diaphragm_radiation_impedance sf box.lsp f, 0, 1⟩

/-- Stage `L` (leakage shunt `1/Ral`).  On the defined path
`(1/⊤).toReal = 0` models numpy's `1/±inf = ±0.0`.  On the undefined path
(`Ral` NaN, see `calculate_leakage_resistance`) the source's shunt entry
is NaN, which a total complex matrix cannot represent; the embedding uses
`0` there and no theorem below asserts anything about that path — the
leakage claim is stated only under the hypotheses that keep `fb`
defined, and the undefined path is exhibited separately. -/
def PortedBoxEnclosure.stageL (box : PortedBoxEnclosure) : M2 :=
  match box.calculate_leakage_resistance with
  | some ral => ⟨1, 0, (((1 / ral).toReal : ℝ) : ℂ), 1⟩
  | none => ⟨1, 0, 0, 1⟩

/-- Stage `B` (simplified box load, coefficient `B = 0.3`). -/
def PortedBoxEnclosure.stageB (box : PortedBoxEnclosure) (f : ℝ) : M2 :=
  ⟨1, 0, 1 / box.calculate_simplified_box_impedance_Zab f 0.3, 1⟩

/-- Stage `P` (port as an acoustic transmission line). -/
def PortedBoxEnclosure.stageP (box : PortedBoxEnclosure) (f : ℝ) : M2 :=
  let t : ℝ := box.port_length
  let kp : ℂ := port_kp f
  ⟨Complex.cos (kp * (t : ℂ)),
    Complex.I * box.Zp * Complex.sin (kp * (t : ℂ)),
    Complex.I * (1 / box.Zp) * Complex.sin (kp * (t : ℂ)),
    Complex.cos (kp * (t : ℂ))⟩

/-- Stage `R` (rectangular port radiation load `Z_a2`). -/
def PortedBoxEnclosure.stageR (sf : SpecialFuns) (box : PortedBoxEnclosure)
    (f : ℝ) : M2 :=
  ⟨1, 0, 1 / box.calculate_port_impedance_Za2 sf f (box.r_d f), 1⟩

/-- The composite transmission matrix
`A = ((((((((C·E)·D)·M)·F)·L)·B)·P)·R` built (twice, identically) inside
`PortedBoxEnclosure.calculate_impedance` and
`PortedBoxEnclosure.calculate_spl`, with the `np.dot` nesting of the
source. -/
def PortedBoxEnclosure.systemMatrix (sf : SpecialFuns)
    (box : PortedBoxEnclosure) (f : ℝ) : M2 :=
  ((((((((box.stageC f).mul box.stageE).mul (box.stageD f)).mul
    box.stageM).mul (box.stageF sf f)).mul box.stageL).mul
    (box.stageB f)).mul (box.stageP f)).mul (box.stageR sf f)

/-- `PortedBoxEnclosure.calculate_impedance`: magnitude of
`Z_tot = a11/a21` of the composite matrix. -/
def PortedBoxEnclosure.calculate_impedance (sf : SpecialFuns)
    (box : PortedBoxEnclosure) (f : ℝ) : ℝ :=
  let A := PortedBoxEnclosure.systemMatrix sf box f
  Complex.abs (A.a11 / A.a21)

/-- `PortedBoxEnclosure.calculate_spl`: returns the triple
`(SPL, SPL_port, SPL_diaphragm)` (only the data flow reaching the returned
values is kept; the locals `response*`, `Ze`, `power` are dead code for the
return value). -/
def PortedBoxEnclosure.calculate_spl (sf : SpecialFuns)
    (box : PortedBoxEnclosure) (f : ℝ) : ℝ × ℝ × ℝ :=
  let A := PortedBoxEnclosure.systemMatrix sf box f
  let Z_a2 : ℂ := box.calculate_port_impedance_Za2 sf f (box.r_d f)
  let p9 : ℂ := (box.lsp.e_g : ℂ) / A.a11
  let Up : ℂ := p9 / Z_a2
  let N : M2 := ((box.stageB f).mul (box.stageP f)).mul (box.stageR sf f)
  let n21 : ℂ := N.a21
  let U6 : ℂ := n21 * p9
  let UB : ℂ := (n21 - 1 / Z_a2) * p9
  (20 * Real.logb 10
      (Complex.abs ((R_0 : ℂ) * (f : ℂ) * UB) / |(20e-6 : ℝ)|),
    20 * Real.logb 10
      (Complex.abs ((R_0 : ℂ) * (f : ℂ) * Up) / |(20e-6 : ℝ)|),
    20 * Real.logb 10
      (Complex.abs ((R_0 : ℂ) * (f : ℂ) * U6) / |(20e-6 : ℝ)|))

/-- The value returned by `calculate_speaker_response`: a success envelope
with result arrays, the ported success envelope with the port/diaphragm
split, the error envelope `{"error": msg}`, or the Python `None` produced
when the `try` block finishes without reaching a `return`. -/
inductive SpeakerResponse where
  | result (frequencies spl impedance : List ℝ)
  | resultPorted
      (frequencies spl spl_port spl_diaphragm impedance : List ℝ)
  | error (msg : String)
  | noResult

/-- `calculate_speaker_response`.  The `try/except` wrapper turns any
`KeyError` (missing dict key) into the error envelope; the scenario key and
the `Loudspeaker` construction are evaluated before the topology dispatch,
and an unrecognized scenario falls through every `elif` so the function
returns Python `None` (`noResult`). -/
def calculate_speaker_response (sf : SpecialFuns) (p : Params) :
    SpeakerResponse :=
  match p.scenario with
  | none => SpeakerResponse.error "KeyError: scenario"
  | some scenario =>
    match Loudspeaker.init p with
    | none => SpeakerResponse.error "KeyError: loudspeaker parameter"
    | some lsp =>
      if scenario = "open_air" then
        SpeakerResponse.result frequencies
          (frequencies.map (fun f => OpenAir.calculate_spl sf lsp f))
          (frequencies.map (fun f => OpenAir.calculate_impedance lsp f))
      else if scenario = "sealed" then
        match p.lx, p.ly, p.lz with
        | some lx, some ly, some lz =>
          SpeakerResponse.result frequencies
            (frequencies.map (fun f =>
              SealedBoxEnclosure.calculate_spl sf
                (SealedBoxEnclosure.init lsp lx ly lz) f))
            (frequencies.map (fun f =>
              SealedBoxEnclosure.calculate_impedance sf
                (SealedBoxEnclosure.init lsp lx ly lz) f))
        | _, _, _ => SpeakerResponse.error "KeyError: box dimension"
      else if scenario = "ported" then
        match p.lx, p.ly, p.lz, p.port_length, p.port_section_aeria with
        | some lx, some ly, some lz, some pl, some psa =>
          if p.port_diagram_response then
            SpeakerResponse.resultPorted frequencies
              (frequencies.map (fun f =>
                (PortedBoxEnclosure.calculate_spl sf
                  (PortedBoxEnclosure.init lsp lx ly lz pl psa) f).1))
              (frequencies.map (fun f =>
                (PortedBoxEnclosure.calculate_spl sf
                  (PortedBoxEnclosure.init lsp lx ly lz pl psa) f).2.1))
              (frequencies.map (fun f =>
                (PortedBoxEnclosure.calculate_spl sf
                  (PortedBoxEnclosure.init lsp lx ly lz pl psa) f).2.2))
              (frequencies.map (fun f =>
                PortedBoxEnclosure.calculate_impedance sf
                  (PortedBoxEnclosure.init lsp lx ly lz pl psa) f))
          else
            SpeakerResponse.result frequencies
              (frequencies.map (fun f =>
                (PortedBoxEnclosure.calculate_spl sf
                  (PortedBoxEnclosure.init lsp lx ly lz pl psa) f).1))
              (frequencies.map (fun f =>
                PortedBoxEnclosure.calculate_impedance sf
                  (PortedBoxEnclosure.init lsp lx ly lz pl psa) f))
        | _, _, _, _, _ => SpeakerResponse.error "KeyError: port parameter"
      else SpeakerResponse.noResult

/-- Evaluating the engine twice on the same inputs (the round-trip of the
determinism property). -/
def runTwice (sf : SpecialFuns) (p : Params) :
    SpeakerResponse × SpeakerResponse :=
  (calculate_speaker_response sf p, calculate_speaker_response sf p)

/-- Whether a response is the error envelope. -/
def SpeakerResponse.isErr : SpeakerResponse → Bool
  | SpeakerResponse.error _ => true
  | _ => false

/-- The composite matrix of the ported box with the leakage stage `L`
removed from the chain (used to show that `L` never affects the output). -/
def PortedBoxEnclosure.systemMatrixNoLeak (sf : SpecialFuns)
    (box : PortedBoxEnclosure) (f : ℝ) : M2 :=
  (((((((box.stageC f).mul box.stageE).mul (box.stageD f)).mul
    box.stageM).mul (box.stageF sf f)).mul
    (box.stageB f)).mul (box.stageP f)).mul (box.stageR sf f)

/-- `PortedBoxEnclosure.calculate_impedance` with the leakage stage
removed. -/
def PortedBoxEnclosure.calculate_impedance_noleak (sf : SpecialFuns)
    (box : PortedBoxEnclosure) (f : ℝ) : ℝ :=
  let A := PortedBoxEnclosure.systemMatrixNoLeak sf box f
  Complex.abs (A.a11 / A.a21)

/-- `PortedBoxEnclosure.calculate_spl` with the leakage stage removed. -/
def PortedBoxEnclosure.calculate_spl_noleak (sf : SpecialFuns)
    (box : PortedBoxEnclosure) (f : ℝ) : ℝ × ℝ × ℝ :=
  let A := PortedBoxEnclosure.systemMatrixNoLeak sf box f
  let Z_a2 : ℂ := box.calculate_port_impedance_Za2 sf f (box.r_d f)
  let p9 : ℂ := (box.lsp.e_g : ℂ) / A.a11
  let Up : ℂ := p9 / Z_a2
  let N : M2 := ((box.stageB f).mul (box.stageP f)).mul (box.stageR sf f)
  let n21 : ℂ := N.a21
  let U6 : ℂ := n21 * p9
  let UB : ℂ := (n21 - 1 / Z_a2) * p9
  (20 * Real.logb 10
      (Complex.abs ((R_0 : ℂ) * (f : ℂ) * UB) / |(20e-6 : ℝ)|),
    20 * Real.logb 10
      (Complex.abs ((R_0 : ℂ) * (f : ℂ) * Up) / |(20e-6 : ℝ)|),
    20 * Real.logb 10
      (Complex.abs ((R_0 : ℂ) * (f : ℂ) * U6) / |(20e-6 : ℝ)|))

/-- A trivial instance of the special-function record, used to evaluate
the engine on concrete inputs in witnesses (all theorems hold for every
record, so any instance will do). -/
def sfZero : SpecialFuns := ⟨fun _ => 0, fun _ => 0, fun _ _ _ _ => 0⟩

/-- A complete open-air parameter set (the reference driver of the spec:
Re=6Ω, Le=0.5mH, z=8Ω, Qes=0.4, Qms=5, fs=40Hz, Vas=50L, Cms=0.5mm/N,
Mms=20g, Bl=8, Sd=200cm², Rms=3). -/
def pOpen : Params :=
  ⟨some 6, some 0.5, some 8, some 0.4, some 5, some 40, some 50, some 0.5,
    some 20, some 8, some 200, some 3, none, none, none, none, none,
    some "open_air", false⟩

/-- The same parameter set with the required key `rms` missing. -/
def pNoRms : Params :=
  ⟨some 6, some 0.5, some 8, some 0.4, some 5, some 40, some 50, some 0.5,
    some 20, some 8, some 200, none, some 30, some 30, some 40, none, none,
    some "open_air", false⟩

/-- A complete parameter set whose topology selector is not one of
`open_air`/`sealed`/`ported`. -/
def pBogus : Params :=
  ⟨some 6, some 0.5, some 8, some 0.4, some 5, some 40, some 50, some 0.5,
    some 20, some 8, some 200, some 3, some 30, some 30, some 40, some 10,
    some 50, some "bass_reflex", false⟩

/-- A sealed-box parameter set with full driver data but the required box
dimension `lx` missing. -/
def pSealedNoLx : Params :=
  ⟨some 6, some 0.5, some 8, some 0.4, some 5, some 40, some 50, some 0.5,
    some 20, some 8, some 200, some 3, none, some 30, some 40, none, none,
    some "sealed", false⟩

/-- A ported-box parameter set with full driver data and box dimensions
but the required key `port_length` missing. -/
def pPortedNoPl : Params :=
  ⟨some 6, some 0.5, some 8, some 0.4, some 5, some 40, some 50, some 0.5,
    some 20, some 8, some 200, some 3, some 30, some 30, some 40, none,
    some 50, some "ported", false⟩

/-- The same parameter set as `pOpen` with the required key `z` missing. -/
def pNoZ : Params :=
  ⟨some 6, some 0.5, none, some 0.4, some 5, some 40, some 50, some 0.5,
    some 20, some 8, some 200, some 3, none, none, none, none, none,
    some "open_air", false⟩

/-- The loudspeaker built from `pOpen`. -/
def lspOpen : Loudspeaker :=
  Loudspeaker.ofVals 6 0.5 8 0.4 5 40 50 0.5 20 8 200 3

/-- The open-air SPL array for `lspOpen`. -/
def splOpen (sf : SpecialFuns) : List ℝ :=
  frequencies.map (fun f => OpenAir.calculate_spl sf lspOpen f)

/-- The open-air impedance array for `lspOpen`. -/
def impOpen : List ℝ :=
  frequencies.map (fun f => OpenAir.calculate_impedance lspOpen f)

theorem M2.one_mul (X : M2) : M2.mul M2.one X = X := by
  cases X
  simp [M2.mul, M2.one]

theorem M2.mul_one (X : M2) : M2.mul X M2.one = X := by
  cases X
  simp [M2.mul, M2.one]

theorem M2.mul_assoc (X Y Z : M2) :
    M2.mul (M2.mul X Y) Z = M2.mul X (M2.mul Y Z) := by
  cases X; cases Y; cases Z
  simp only [M2.mul, M2.mk.injEq]
  refine ⟨by ring, by ring, by ring, by ring⟩

/-- C1: for the ported-box topology, at every frequency `f`,
`calculate_impedance` multiplies the 2×2 stage matrices left-to-right in
the order electrical source+coil (`C`), gyrator (`E`), mechanical
mass-compliance-resistance (`D`), diaphragm area transform (`M`),
diaphragm radiation load (`F`), leakage shunt (`L`), box load (`B`), port
transmission line (`P`), port radiation load (`R`), and returns the
magnitude of `Z_tot = a11/a21` of the composite product. -/
theorem ported_impedance_stage_order (sf : SpecialFuns)
    (box : PortedBoxEnclosure) (f : ℝ) :
    PortedBoxEnclosure.calculate_impedance sf box f =
      Complex.abs
        ((List.foldl M2.mul M2.one
            [box.stageC f, box.stageE, box.stageD f, box.stageM,
              box.stageF sf f, box.stageL, box.stageB f, box.stageP f,
              box.stageR sf f]).a11 /
          (List.foldl M2.mul M2.one
            [box.stageC f, box.stageE, box.stageD f, box.stageM,
              box.stageF sf f, box.stageL, box.stageB f, box.stageP f,
              box.stageR sf f]).a21) := by
  simp only [List.foldl_cons, List.foldl_nil, M2.one_mul]
  rfl

/-- C4: for every `f > 0`, `calculate_wave_number f` is exactly
`(2πf/c)·((1 + A3(R_f/f)^B3) - i·A4(R_f/f)^B4)` with the fixed material
coefficients `A3 = 0.0858`, `A4 = 0.175`, `B3 = 0.7`, `B4 = 0.59` and the
speed of sound `c = 344.8`; at `f = 0` it does not return a finite complex
number (modelled by `none`). -/
theorem wave_number_formula :
    (∀ f : ℝ, 0 < f →
      calculate_wave_number f =
        some (((2 * Real.pi * f / SOUND_CELERITY : ℝ) : ℂ) *
          (((1 + A3 * (calculate_R_f / f) ^ (B3 : ℝ) : ℝ) : ℂ) -
            Complex.I * ((A4 * (calculate_R_f / f) ^ (B4 : ℝ) : ℝ) : ℂ)))) ∧
    calculate_wave_number 0 = none ∧
    A3 = 0.0858 ∧ A4 = 0.175 ∧ B3 = 0.7 ∧ B4 = 0.59 ∧
    SOUND_CELERITY = 344.8 := by
  refine ⟨fun f hf => ?_, ?_, rfl, rfl, rfl, rfl, rfl⟩
  · simp [calculate_wave_number, waveNumber, hf]
  · simp [calculate_wave_number]

/-- Witness for C4 at `f = 1`. -/
theorem wave_number_formula_witness :
    (0 : ℝ) < 1 ∧
    calculate_wave_number 1 =
      some (((2 * Real.pi * 1 / SOUND_CELERITY : ℝ) : ℂ) *
        (((1 + A3 * (calculate_R_f / 1) ^ (B3 : ℝ) : ℝ) : ℂ) -
          Complex.I * ((A4 * (calculate_R_f / 1) ^ (B4 : ℝ) : ℝ) : ℂ))) :=
  ⟨by norm_num, wave_number_formula.1 1 (by norm_num)⟩

/-- The total Q of two positive Q factors is below both. -/
theorem q_parallel_le_min {a b : ℝ} (ha : 0 < a) (hb : 0 < b) :
    a * b / (a + b) ≤ min a b := by
  have hab : 0 < a + b := by linarith
  refine le_min ?_ ?_
  · rw [div_le_iff₀ hab]; nlinarith
  · rw [div_le_iff₀ hab]; nlinarith

/-- C6: every `Loudspeaker` built by the constructor has
`Qts = Qes·Qms/(Qes+Qms)`, and for positive `Qes`, `Qms` this satisfies
`Qts ≤ min Qes Qms`. -/
theorem qts_formula (p : Params) (l : Loudspeaker)
    (h : Loudspeaker.init p = some l) :
    l.Qts = l.Qes * l.Qms / (l.Qes + l.Qms) ∧
    (0 < l.Qes → 0 < l.Qms → l.Qts ≤ min l.Qes l.Qms) := by
  unfold Loudspeaker.init at h
  split at h
  · obtain rfl : _ = l := Option.some.inj h
    refine ⟨rfl, fun h1 h2 => ?_⟩
    simp only [Loudspeaker.ofVals] at h1 h2 ⊢
    exact q_parallel_le_min h1 h2
  · exact absurd h (by simp)

/-- Witness for C6 on the reference driver (`Qes = 0.4`, `Qms = 5`). -/
theorem qts_formula_witness :
    lspOpen.Qts = lspOpen.Qes * lspOpen.Qms / (lspOpen.Qes + lspOpen.Qms) ∧
    lspOpen.Qts ≤ min lspOpen.Qes lspOpen.Qms :=
  ⟨(qts_formula pOpen lspOpen rfl).1,
    (qts_formula pOpen lspOpen rfl).2
      (by norm_num [lspOpen, Loudspeaker.ofVals])
      (by norm_num [lspOpen, Loudspeaker.ofVals])⟩

/-- C3 (counterexample): with every other required parameter supplied but
`rms` missing, the `Loudspeaker` constructor fails (KeyError) instead of
deriving `Rms` — the claimed fallback `Rms = (1/Qms)·√(Mms/Cms)` does not
exist in the code. -/
theorem rms_missing_counterexample :
    pNoRms.rms = none ∧
    (pNoRms.re.isSome = true ∧ pNoRms.le.isSome = true ∧
      pNoRms.z.isSome = true ∧ pNoRms.qes.isSome = true ∧
      pNoRms.qms.isSome = true ∧ pNoRms.fs.isSome = true ∧
      pNoRms.vas.isSome = true ∧ pNoRms.cms.isSome = true ∧
      pNoRms.mms.isSome = true ∧ pNoRms.bl.isSome = true ∧
      pNoRms.sd.isSome = true) ∧
    Loudspeaker.init pNoRms = none :=
  ⟨rfl, ⟨rfl, rfl, rfl, rfl, rfl, rfl, rfl, rfl, rfl, rfl, rfl⟩, rfl⟩

/-- C3 (amended): `rms` is a required parameter — if it is not supplied the
`Loudspeaker` constructor fails (KeyError caught into the error envelope);
no derived value is substituted, and when `rms` is supplied the stored
mechanical resistance is exactly the supplied value. -/
theorem rms_required (p : Params) :
    (p.rms = none → Loudspeaker.init p = none) ∧
    (∀ l, Loudspeaker.init p = some l → p.rms = some l.Rms) := by
  constructor
  · intro h
    unfold Loudspeaker.init
    split
    · simp_all
    · rfl
  · intro l hl
    unfold Loudspeaker.init at hl
    split at hl
    · obtain rfl : _ = l := Option.some.inj hl
      simp_all [Loudspeaker.ofVals]
    · exact absurd hl (by simp)

/-- Witness for C3's amended claim at the concrete map `pNoRms`. -/
theorem rms_required_witness : Loudspeaker.init pNoRms = none :=
  (rms_required pNoRms).1 rfl

/-- C2 (counterexample): with a full, valid driver parameter set but the
unrecognized topology selector `"bass_reflex"`, the engine returns Python
`None` (no envelope at all), not the single-key error envelope the claim
requires. -/
theorem invalid_scenario_counterexample :
    calculate_speaker_response sfZero pBogus = SpeakerResponse.noResult ∧
    (calculate_speaker_response sfZero pBogus).isErr = false :=
  ⟨rfl, rfl⟩

/-- C2 (amended): a missing `scenario` key, a missing/invalid required
driver parameter, or — for the sealed and ported topologies — a missing
box or port geometry parameter makes the engine fail before any frequency
evaluation and return the single-key error envelope with a message, with
no partial result arrays; but an unrecognized topology selector makes the
`try` body fall through every branch and return Python `None`, not an
error envelope. -/
theorem response_error_envelope (sf : SpecialFuns) (p : Params) :
    (p.scenario = none →
      calculate_speaker_response sf p =
        SpeakerResponse.error "KeyError: scenario") ∧
    (∀ s, p.scenario = some s → Loudspeaker.init p = none →
      calculate_speaker_response sf p =
        SpeakerResponse.error "KeyError: loudspeaker parameter") ∧
    (∀ l, p.scenario = some "sealed" → Loudspeaker.init p = some l →
      p.lx = none ∨ p.ly = none ∨ p.lz = none →
      calculate_speaker_response sf p =
        SpeakerResponse.error "KeyError: box dimension") ∧
    (∀ l, p.scenario = some "ported" → Loudspeaker.init p = some l →
      p.lx = none ∨ p.ly = none ∨ p.lz = none ∨ p.port_length = none ∨
        p.port_section_aeria = none →
      calculate_speaker_response sf p =
        SpeakerResponse.error "KeyError: port parameter") ∧
    (∀ s l, p.scenario = some s → Loudspeaker.init p = some l →
      s ≠ "open_air" → s ≠ "sealed" → s ≠ "ported" →
      calculate_speaker_response sf p = SpeakerResponse.noResult) := by
  refine ⟨fun h => ?_, fun s hs h => ?_, fun l hs h hgeo => ?_,
    fun l hs h hgeo => ?_, fun s l hs h h1 h2 h3 => ?_⟩
  · unfold calculate_speaker_response
    rw [h]
  · unfold calculate_speaker_response
    rw [hs, h]
  · unfold calculate_speaker_response
    rw [hs, h]
    have hso : ¬(("sealed" : String) = "open_air") := by decide
    rcases hx : p.lx with _ | vx <;> rcases hy : p.ly with _ | vy <;>
      rcases hz : p.lz with _ | vz <;> simp_all [hso]
  · unfold calculate_speaker_response
    rw [hs, h]
    have hpo : ¬(("ported" : String) = "open_air") := by decide
    have hps : ¬(("ported" : String) = "sealed") := by decide
    rcases hx : p.lx with _ | vx <;> rcases hy : p.ly with _ | vy <;>
      rcases hz : p.lz with _ | vz <;>
      rcases hl : p.port_length with _ | vl <;>
      rcases ha : p.port_section_aeria with _ | va <;>
      simp_all [hpo, hps]
  · unfold calculate_speaker_response
    rw [hs, h]
    simp [h1, h2, h3]

/-- Witness for C2's amended claim: a missing `rms` and missing geometry
keys each give the error envelope, an unrecognized scenario gives
`None`. -/
theorem response_error_envelope_witness :
    calculate_speaker_response sfZero pNoRms =
      SpeakerResponse.error "KeyError: loudspeaker parameter" ∧
    calculate_speaker_response sfZero pSealedNoLx =
      SpeakerResponse.error "KeyError: box dimension" ∧
    calculate_speaker_response sfZero pPortedNoPl =
      SpeakerResponse.error "KeyError: port parameter" ∧
    calculate_speaker_response sfZero pBogus = SpeakerResponse.noResult :=
  ⟨(response_error_envelope sfZero pNoRms).2.1 "open_air" rfl rfl,
    (response_error_envelope sfZero pSealedNoLx).2.2.1 lspOpen rfl rfl
      (Or.inl rfl),
    (response_error_envelope sfZero pPortedNoPl).2.2.2.1 lspOpen rfl rfl
      (Or.inr (Or.inr (Or.inr (Or.inl rfl)))),
    (response_error_envelope sfZero pBogus).2.2.2.2 "bass_reflex" lspOpen
      rfl rfl (by decide) (by decide) (by decide)⟩

/-- C8: `calculate_speaker_response` is a pure function — evaluating it
twice on the same parameter map yields identical responses, and when both
evaluations succeed the frequency, SPL and impedance arrays agree element
for element. -/
theorem response_deterministic (sf : SpecialFuns) (p : Params) :
    (runTwice sf p).1 = (runTwice sf p).2 ∧
    ∀ freq spl imp freq2 spl2 imp2,
      (runTwice sf p).1 = SpeakerResponse.result freq spl imp →
      (runTwice sf p).2 = SpeakerResponse.result freq2 spl2 imp2 →
      freq = freq2 ∧ spl = spl2 ∧ imp = imp2 := by
  refine ⟨rfl, ?_⟩
  intro freq spl imp freq2 spl2 imp2 h1 h2
  have h3 : SpeakerResponse.result freq spl imp =
      SpeakerResponse.result freq2 spl2 imp2 := h1.symm.trans h2
  simpa using h3

/-- Witness for C8 on the concrete open-air parameter set `pOpen`. -/
theorem response_deterministic_witness :
    frequencies = frequencies ∧ splOpen sfZero = splOpen sfZero ∧
    impOpen = impOpen :=
  (response_deterministic sfZero pOpen).2 frequencies (splOpen sfZero)
    impOpen frequencies (splOpen sfZero) impOpen rfl rfl

theorem freqAt_eq (i : ℕ) :
    freqAt i = 20 * (10 : ℝ) ^ (3 * (i : ℝ) / 499) := by
  unfold freqAt
  have h10 : (0 : ℝ) < 10 := by norm_num
  have hne : (10 : ℝ) ≠ 1 := by norm_num
  have h3 : Real.logb 10 20000 - Real.logb 10 20 = 3 := by
    rw [← Real.logb_div (by norm_num) (by norm_num)]
    rw [show (20000 : ℝ) / 20 = 1000 by norm_num]
    rw [show (1000 : ℝ) = (10 : ℝ) ^ (3 : ℝ) by
      rw [show (3 : ℝ) = ((3 : ℕ) : ℝ) by norm_num, Real.rpow_natCast]
      norm_num]
    exact Real.logb_rpow h10 hne
  rw [h3, Real.rpow_add h10,
    Real.rpow_logb h10 hne (by norm_num : (0 : ℝ) < 20),
    show (i : ℝ) * ((3 : ℝ) / 499) = 3 * (i : ℝ) / 499 by ring]

theorem freqAt_lt_freqAt {i j : ℕ} (hij : i < j) : freqAt i < freqAt j := by
  rw [freqAt_eq, freqAt_eq]
  have hij' : (i : ℝ) < (j : ℝ) := by exact_mod_cast hij
  have hexp : 3 * (i : ℝ) / 499 < 3 * (j : ℝ) / 499 := by linarith
  have h2 : (10 : ℝ) ^ (3 * (i : ℝ) / 499) <
      (10 : ℝ) ^ (3 * (j : ℝ) / 499) :=
    (Real.rpow_lt_rpow_left_iff (by norm_num : (1 : ℝ) < 10)).mpr hexp
  linarith

theorem frequencies_length : frequencies.length = 500 := by
  simp [frequencies]

theorem frequencies_getElem (i : ℕ) (h : i < frequencies.length) :
    frequencies[i] = 20 * (10 : ℝ) ^ (3 * (i : ℝ) / 499) := by
  simp [frequencies, freqAt_eq]

theorem frequencies_pairwise : frequencies.Pairwise (· < ·) := by
  unfold frequencies
  rw [List.pairwise_map]
  exact (List.pairwise_lt_range 500).imp freqAt_lt_freqAt

theorem frequencies_first : frequencies[0]? = some 20 := by
  have : freqAt 0 = 20 := by
    rw [freqAt_eq]
    norm_num
  simp [frequencies, this]

theorem frequencies_last : frequencies[499]? = some 20000 := by
  have : freqAt 499 = 20000 := by
    rw [freqAt_eq]
    rw [show 3 * ((499 : ℕ) : ℝ) / 499 = ((3 : ℕ) : ℝ) by norm_num,
      Real.rpow_natCast]
    norm_num
  simp [frequencies, this]

/-- C9 (counterexample): the claim fails for a constructible geometry
whose port volume exceeds the box volume (1 cm box, 100 cm port of
100 cm² section): `Vab < 0`, so `np.sqrt(Vp/Vab)` is NaN, `fb` is NaN and
`Ral = 7/NaN` is NaN — not an infinite resistance — and the source's
leakage shunt `[[1,0],[NaN,1]]` is not the identity. -/
theorem ported_leakage_nan_counterexample :
    (PortedBoxEnclosure.init lspOpen 1 1 1 100 100).Vab < 0 ∧
    ((PortedBoxEnclosure.init lspOpen 1 1 1 100 100).calculate_port).2.2 =
      none ∧
    (PortedBoxEnclosure.init lspOpen 1 1 1 100
      100).calculate_leakage_resistance = none := by
  have hVab : (PortedBoxEnclosure.init lspOpen 1 1 1 100 100).Vab < 0 := by
    norm_num [PortedBoxEnclosure.init]
  have hcond : (PortedBoxEnclosure.init lspOpen 1 1 1 100
        100).port_length = 0 ∨
      (PortedBoxEnclosure.init lspOpen 1 1 1 100 100).Vab = 0 ∨
      (PortedBoxEnclosure.init lspOpen 1 1 1 100 100).Vp /
          (PortedBoxEnclosure.init lspOpen 1 1 1 100 100).Vab < 0 :=
    Or.inr (Or.inr (div_neg_of_pos_of_neg
      (by norm_num [PortedBoxEnclosure.init]) hVab))
  have hfb : ((PortedBoxEnclosure.init lspOpen 1 1 1 100
      100).calculate_port).2.2 = none := by
    simp only [PortedBoxEnclosure.calculate_port]
    rw [if_pos hcond]
  refine ⟨hVab, hfb, ?_⟩
  unfold PortedBoxEnclosure.calculate_leakage_resistance
  rw [hfb]

/-- C9 (amended): in every `PortedBoxEnclosure` the constructor fixes the
lining volumes `Va = Vm = 0`, so the total compliance `Cab` is zero; and
whenever the tuning frequency is defined — nonzero port length,
`Vab > 0` (port volume strictly below box volume) and `Vp ≥ 0` —
`calculate_leakage_resistance` is the infinite resistance (`7/±0.0`,
`some ⊤`), the leakage shunt matrix equals the identity, and removing the
leakage stage changes neither the ported-box impedance nor any of the
three SPL values, at every frequency.  For degenerate geometry with
`Vab ≤ 0` the tuning frequency and `Ral` are NaN/undefined instead and
the NaN shunt corrupts the outputs. -/
theorem ported_leakage_identity (sf : SpecialFuns) (lsp : Loudspeaker)
    (lx ly lz pl psa f : ℝ)
    (hpl : (PortedBoxEnclosure.init lsp lx ly lz pl psa).port_length ≠ 0)
    (hVab : 0 < (PortedBoxEnclosure.init lsp lx ly lz pl psa).Vab)
    (hVp : 0 ≤ (PortedBoxEnclosure.init lsp lx ly lz pl psa).Vp) :
    (PortedBoxEnclosure.init lsp lx ly lz pl psa).Va = 0 ∧
    (PortedBoxEnclosure.init lsp lx ly lz pl psa).Vm = 0 ∧
    (PortedBoxEnclosure.init lsp lx ly lz pl
        psa).calculate_leakage_resistance = some ⊤ ∧
    (PortedBoxEnclosure.init lsp lx ly lz pl psa).stageL = M2.one ∧
    PortedBoxEnclosure.calculate_impedance sf
        (PortedBoxEnclosure.init lsp lx ly lz pl psa) f =
      PortedBoxEnclosure.calculate_impedance_noleak sf
        (PortedBoxEnclosure.init lsp lx ly lz pl psa) f ∧
    PortedBoxEnclosure.calculate_spl sf
        (PortedBoxEnclosure.init lsp lx ly lz pl psa) f =
      PortedBoxEnclosure.calculate_spl_noleak sf
        (PortedBoxEnclosure.init lsp lx ly lz pl psa) f := by
  have hcond : ¬((PortedBoxEnclosure.init lsp lx ly lz pl
        psa).port_length = 0 ∨
      (PortedBoxEnclosure.init lsp lx ly lz pl psa).Vab = 0 ∨
      (PortedBoxEnclosure.init lsp lx ly lz pl psa).Vp /
          (PortedBoxEnclosure.init lsp lx ly lz pl psa).Vab < 0) :=
    not_or.mpr ⟨hpl, not_or.mpr ⟨hVab.ne',
      not_lt.mpr (div_nonneg hVp hVab.le)⟩⟩
  have hfb : ((PortedBoxEnclosure.init lsp lx ly lz pl
      psa).calculate_port).2.2 =
      some ((SOUND_CELERITY /
          (2 * Real.pi *
            (PortedBoxEnclosure.init lsp lx ly lz pl psa).port_length)) *
        Real.sqrt ((PortedBoxEnclosure.init lsp lx ly lz pl psa).Vp /
          (PortedBoxEnclosure.init lsp lx ly lz pl psa).Vab)) := by
    simp only [PortedBoxEnclosure.calculate_port]
    rw [if_neg hcond]
  have hres : (PortedBoxEnclosure.init lsp lx ly lz pl
      psa).calculate_leakage_resistance = some ⊤ := by
    unfold PortedBoxEnclosure.calculate_leakage_resistance
    rw [hfb]
    simp [PortedBoxEnclosure.init, ENNReal.div_eq_top]
  have hL : (PortedBoxEnclosure.init lsp lx ly lz pl psa).stageL =
      M2.one := by
    unfold PortedBoxEnclosure.stageL
    rw [hres]
    simp [M2.one]
  have hmat : PortedBoxEnclosure.systemMatrix sf
      (PortedBoxEnclosure.init lsp lx ly lz pl psa) f =
      PortedBoxEnclosure.systemMatrixNoLeak sf
        (PortedBoxEnclosure.init lsp lx ly lz pl psa) f := by
    unfold PortedBoxEnclosure.systemMatrix
      PortedBoxEnclosure.systemMatrixNoLeak
    rw [hL, M2.mul_one]
  refine ⟨rfl, rfl, hres, hL, ?_, ?_⟩
  · unfold PortedBoxEnclosure.calculate_impedance
      PortedBoxEnclosure.calculate_impedance_noleak
    rw [hmat]
  · unfold PortedBoxEnclosure.calculate_spl
      PortedBoxEnclosure.calculate_spl_noleak
    rw [hmat]

/-- Witness for C9's amended claim on a well-posed 30×30×40 cm box with a
10 cm, 50 cm² port (`Vab = 0.0355 > 0`). -/
theorem ported_leakage_identity_witness :
    (PortedBoxEnclosure.init lspOpen 30 30 40 10
      50).calculate_leakage_resistance = some ⊤ ∧
    (PortedBoxEnclosure.init lspOpen 30 30 40 10 50).stageL = M2.one ∧
    PortedBoxEnclosure.calculate_impedance sfZero
        (PortedBoxEnclosure.init lspOpen 30 30 40 10 50) 100 =
      PortedBoxEnclosure.calculate_impedance_noleak sfZero
        (PortedBoxEnclosure.init lspOpen 30 30 40 10 50) 100 := by
  have h := ported_leakage_identity sfZero lspOpen 30 30 40 10 50 100
    (by norm_num [PortedBoxEnclosure.init])
    (by norm_num [PortedBoxEnclosure.init])
    (by norm_num [PortedBoxEnclosure.init])
  exact ⟨h.2.2.1, h.2.2.2.1, h.2.2.2.2.1⟩

/-- C5: every successful evaluation (of any topology) returns SPL and
impedance arrays whose length equals the length of the frequency grid,
and the grid is the fixed 500-point log-spaced sequence
`f_i = 20·10^(3i/499)`, strictly increasing from 20 Hz to 20000 Hz. -/
theorem response_grid (sf : SpecialFuns) (p : Params) :
    (∀ freq spl imp,
      calculate_speaker_response sf p = SpeakerResponse.result freq spl imp →
      freq = frequencies ∧ spl.length = freq.length ∧
        imp.length = freq.length) ∧
    (∀ freq spl splp spld imp,
      calculate_speaker_response sf p =
        SpeakerResponse.resultPorted freq spl splp spld imp →
      freq = frequencies ∧ spl.length = freq.length ∧
        splp.length = freq.length ∧ spld.length = freq.length ∧
        imp.length = freq.length) ∧
    frequencies.length = 500 ∧
    (∀ (i : ℕ), i < frequencies.length →
      frequencies[i]? = some (20 * (10 : ℝ) ^ (3 * (i : ℝ) / 499))) ∧
    frequencies.Pairwise (· < ·) ∧
    frequencies[0]? = some 20 ∧ frequencies[499]? = some 20000 := by
  refine ⟨?_, ?_, frequencies_length, ?_, frequencies_pairwise,
    frequencies_first, frequencies_last⟩
  · intro freq spl imp h
    unfold calculate_speaker_response at h
    repeat' split at h
    all_goals
      first
      | exact SpeakerResponse.noConfusion h
      | · injection h with h1 h2 h3
          subst h1; subst h2; subst h3
          exact ⟨rfl, by simp, by simp⟩
  · intro freq spl splp spld imp h
    unfold calculate_speaker_response at h
    repeat' split at h
    all_goals
      first
      | exact SpeakerResponse.noConfusion h
      | · injection h with h1 h2 h3 h4 h5
          subst h1; subst h2; subst h3; subst h4; subst h5
          exact ⟨rfl, by simp, by simp, by simp, by simp⟩
  · intro i hi
    rw [List.getElem?_eq_getElem hi, frequencies_getElem i hi]

/-- Witness for C5 on the concrete open-air parameter set `pOpen`. -/
theorem response_grid_witness :
    frequencies = frequencies ∧
    (splOpen sfZero).length = frequencies.length ∧
    impOpen.length = frequencies.length :=
  (response_grid sfZero pOpen).1 frequencies (splOpen sfZero) impOpen rfl

/-- C7: for the open-air topology at every `f > 0`, `calculate_spl`
returns `SPL = 20·log10(p_rms/p_ref)` with `p_ref = 20 µPa = 2·10⁻⁵ Pa`
and `p_rms = ρ₀·f·Sd·u_c`, where `u_c` is the magnitude of the complex
diaphragm velocity `e_g·Bl/((Rg+Re+iωLe)·Z_MT)` of the electro-mechanical
model. -/
theorem openair_spl_formula (sf : SpecialFuns) (lsp : Loudspeaker) (f : ℝ)
    (_hf : 0 < f) :
    OpenAir.calculate_spl sf lsp f =
      20 * Real.logb 10 (R_0 * f * lsp.Sd * OpenAir.u_c sf lsp f / P_REF) ∧
    OpenAir.u_c sf lsp f = Complex.abs (OpenAir.velocity sf lsp f) ∧
    P_REF = 2 / 10 ^ (5 : ℕ) := by
  refine ⟨rfl, rfl, ?_⟩
  norm_num [P_REF]

/-- Witness for C7 on the reference driver at `f = 100`. -/
theorem openair_spl_formula_witness :
    (0 : ℝ) < 100 ∧
    OpenAir.calculate_spl sfZero lspOpen 100 =
      20 * Real.logb 10
        (R_0 * 100 * lspOpen.Sd * OpenAir.u_c sfZero lspOpen 100 / P_REF) :=
  ⟨by norm_num, (openair_spl_formula sfZero lspOpen 100 (by norm_num)).1⟩

/-- A level `20·log10(√z·T)` is monotone in `z` for fixed `T ≥ 0`
(if `T = 0` both sides are `log 0 = 0`). -/
theorem logb_sqrt_scale {z z' T : ℝ} (hz : 0 < z) (hzz : z ≤ z')
    (hT : 0 ≤ T) :
    20 * Real.logb 10 (Real.sqrt z * T) ≤
      20 * Real.logb 10 (Real.sqrt z' * T) := by
  rcases hT.eq_or_lt with hT0 | hTpos
  · rw [← hT0]
    simp
  · have h1 : 0 < Real.sqrt z * T := mul_pos (Real.sqrt_pos.mpr hz) hTpos
    have h2 : Real.sqrt z * T ≤ Real.sqrt z' * T :=
      mul_le_mul_of_nonneg_right (Real.sqrt_le_sqrt hzz) hT
    have h3 := Real.logb_le_logb_of_le (by norm_num : (1 : ℝ) < 10) h1 h2
    linarith

/-- The open-air SPL with nominal impedance `w` equals the `z = 1` SPL
with the pressure scaled by `√w`. -/
theorem openair_spl_sqrt_z (sf : SpecialFuns)
    (re le qes qms fs vas cms mms bl sd rms f w : ℝ) :
    OpenAir.calculate_spl sf
        (Loudspeaker.ofVals re le w qes qms fs vas cms mms bl sd rms) f =
      20 * Real.logb 10 (Real.sqrt w *
        (R_0 * f *
          (Loudspeaker.ofVals re le 1 qes qms fs vas cms mms bl sd rms).Sd *
          OpenAir.u_c sf
            (Loudspeaker.ofVals re le 1 qes qms fs vas cms mms bl sd rms) f /
          P_REF)) := by
  have hZ : OpenAir.Z_MT sf
      (Loudspeaker.ofVals re le w qes qms fs vas cms mms bl sd rms) f =
      OpenAir.Z_MT sf
        (Loudspeaker.ofVals re le 1 qes qms fs vas cms mms bl sd rms) f :=
    rfl
  have hvel : OpenAir.velocity sf
      (Loudspeaker.ofVals re le w qes qms fs vas cms mms bl sd rms) f =
      ((Real.sqrt w : ℝ) : ℂ) *
        OpenAir.velocity sf
          (Loudspeaker.ofVals re le 1 qes qms fs vas cms mms bl sd rms) f := by
    simp only [OpenAir.velocity]
    rw [hZ]
    simp only [Loudspeaker.ofVals]
    rw [Real.sqrt_one, one_mul, Complex.ofReal_mul, mul_div_assoc]
  have hu : OpenAir.u_c sf
      (Loudspeaker.ofVals re le w qes qms fs vas cms mms bl sd rms) f =
      Real.sqrt w *
        OpenAir.u_c sf
          (Loudspeaker.ofVals re le 1 qes qms fs vas cms mms bl sd rms) f := by
    unfold OpenAir.u_c
    rw [hvel, map_mul, Complex.abs_ofReal,
      abs_of_nonneg (Real.sqrt_nonneg w)]
  have hSd : (Loudspeaker.ofVals re le w qes qms fs vas cms mms bl sd
      rms).Sd =
      (Loudspeaker.ofVals re le 1 qes qms fs vas cms mms bl sd rms).Sd :=
    rfl
  simp only [OpenAir.calculate_spl]
  rw [hu, hSd]
  congr 1
  ring_nf

/-- Open-air SPL is monotone in the nominal-impedance parameter `z`. -/
theorem openair_spl_z_le (sf : SpecialFuns)
    (re le qes qms fs vas cms mms bl sd rms f z z' : ℝ)
    (hz : 0 < z) (hzz : z ≤ z') (hf : 0 < f) (hsd : 0 ≤ sd) :
    OpenAir.calculate_spl sf
        (Loudspeaker.ofVals re le z qes qms fs vas cms mms bl sd rms) f ≤
      OpenAir.calculate_spl sf
        (Loudspeaker.ofVals re le z' qes qms fs vas cms mms bl sd rms) f := by
  rw [openair_spl_sqrt_z, openair_spl_sqrt_z]
  apply logb_sqrt_scale hz hzz
  have hSd : (0 : ℝ) ≤
      (Loudspeaker.ofVals re le 1 qes qms fs vas cms mms bl sd rms).Sd := by
    simp only [Loudspeaker.ofVals]
    positivity
  have hu : (0 : ℝ) ≤ OpenAir.u_c sf
      (Loudspeaker.ofVals re le 1 qes qms fs vas cms mms bl sd rms) f :=
    Complex.abs.nonneg _
  have hR : (0 : ℝ) ≤ R_0 := by norm_num [R_0]
  have hP : (0 : ℝ) ≤ P_REF := by norm_num [P_REF]
  have := mul_nonneg (mul_nonneg (mul_nonneg hR hf.le) hSd) hu
  positivity

/-- Pulling a real `√w` factor out of a complex magnitude
(`p = c·f·(√w/a/z)` form of the sealed-box sound pressure). -/
theorem abs_mul_sqrt_div (w : ℝ) (c fz a z : ℂ) :
    Complex.abs (c * fz * (((Real.sqrt w : ℝ) : ℂ) / a / z)) =
      Real.sqrt w * Complex.abs (c * fz * (1 / a / z)) := by
  rw [show c * fz * (((Real.sqrt w : ℝ) : ℂ) / a / z) =
      ((Real.sqrt w : ℝ) : ℂ) * (c * fz * (1 / a / z)) from by ring,
    map_mul, Complex.abs_ofReal, abs_of_nonneg (Real.sqrt_nonneg w)]

/-- Pulling a real `√w` factor out of a complex magnitude
(`p = c·f·(u·(√w/a))` form of the ported-box sound pressure). -/
theorem abs_mul_sqrt_factor (w : ℝ) (c fz u a : ℂ) :
    Complex.abs (c * fz * (u * (((Real.sqrt w : ℝ) : ℂ) / a))) =
      Real.sqrt w * Complex.abs (c * fz * (u * (1 / a))) := by
  rw [show c * fz * (u * (((Real.sqrt w : ℝ) : ℂ) / a)) =
      ((Real.sqrt w : ℝ) : ℂ) * (c * fz * (u * (1 / a))) from by ring,
    map_mul, Complex.abs_ofReal, abs_of_nonneg (Real.sqrt_nonneg w)]

/-- The sealed-box SPL with nominal impedance `w` equals the `z = 1` SPL
with the pressure scaled by `√w` (the transmission matrices and the box
impedance do not read `e_g` or `Znom`). -/
theorem sealed_spl_sqrt_z (sf : SpecialFuns)
    (re le qes qms fs vas cms mms bl sd rms lx ly lz f w : ℝ) :
    SealedBoxEnclosure.calculate_spl sf
        (SealedBoxEnclosure.init
          (Loudspeaker.ofVals re le w qes qms fs vas cms mms bl sd rms)
          lx ly lz) f =
      20 * Real.logb 10 (Real.sqrt w *
        (Complex.abs ((R_0 : ℂ) * (f : ℂ) *
            (1 / (SealedBoxEnclosure.systemMatrix sf
              (SealedBoxEnclosure.init
                (Loudspeaker.ofVals re le 1 qes qms fs vas cms mms bl sd
                  rms) lx ly lz) f).a11 /
              (SealedBoxEnclosure.init
                (Loudspeaker.ofVals re le 1 qes qms fs vas cms mms bl sd
                  rms) lx ly
                lz).calculate_simplified_box_impedance_Zab f 0.46)) /
          |(20e-6 : ℝ)|)) := by
  have hA : SealedBoxEnclosure.systemMatrix sf
      (SealedBoxEnclosure.init
        (Loudspeaker.ofVals re le w qes qms fs vas cms mms bl sd rms)
        lx ly lz) f =
      SealedBoxEnclosure.systemMatrix sf
        (SealedBoxEnclosure.init
          (Loudspeaker.ofVals re le 1 qes qms fs vas cms mms bl sd rms)
          lx ly lz) f := rfl
  have hZab : (SealedBoxEnclosure.init
      (Loudspeaker.ofVals re le w qes qms fs vas cms mms bl sd rms)
      lx ly lz).calculate_simplified_box_impedance_Zab f 0.46 =
      (SealedBoxEnclosure.init
        (Loudspeaker.ofVals re le 1 qes qms fs vas cms mms bl sd rms)
        lx ly lz).calculate_simplified_box_impedance_Zab f 0.46 := rfl
  have he : (SealedBoxEnclosure.init
      (Loudspeaker.ofVals re le w qes qms fs vas cms mms bl sd rms)
      lx ly lz).lsp.e_g = Real.sqrt w := rfl
  simp only [SealedBoxEnclosure.calculate_spl]
  rw [hA, hZab, he, div_div, ← div_div, abs_mul_sqrt_div]
  congr 1
  ring_nf

/-- Sealed-box SPL is monotone in the nominal-impedance parameter `z`. -/
theorem sealed_spl_z_le (sf : SpecialFuns)
    (re le qes qms fs vas cms mms bl sd rms lx ly lz f z z' : ℝ)
    (hz : 0 < z) (hzz : z ≤ z') :
    SealedBoxEnclosure.calculate_spl sf
        (SealedBoxEnclosure.init
          (Loudspeaker.ofVals re le z qes qms fs vas cms mms bl sd rms)
          lx ly lz) f ≤
      SealedBoxEnclosure.calculate_spl sf
        (SealedBoxEnclosure.init
          (Loudspeaker.ofVals re le z' qes qms fs vas cms mms bl sd rms)
          lx ly lz) f := by
  rw [sealed_spl_sqrt_z, sealed_spl_sqrt_z]
  apply logb_sqrt_scale hz hzz
  positivity

/-- The ported-box main SPL with nominal impedance `w` equals the `z = 1`
SPL with the pressure scaled by `√w` (every transmission matrix and port
quantity is independent of `e_g` and `Znom`). -/
theorem ported_spl_sqrt_z (sf : SpecialFuns)
    (re le qes qms fs vas cms mms bl sd rms lx ly lz pl psa f w : ℝ) :
    (PortedBoxEnclosure.calculate_spl sf
        (PortedBoxEnclosure.init
          (Loudspeaker.ofVals re le w qes qms fs vas cms mms bl sd rms)
          lx ly lz pl psa) f).1 =
      20 * Real.logb 10 (Real.sqrt w *
        (Complex.abs ((R_0 : ℂ) * (f : ℂ) *
            ((((((PortedBoxEnclosure.init
                    (Loudspeaker.ofVals re le 1 qes qms fs vas cms mms bl
                      sd rms) lx ly lz pl psa).stageB f).mul
                  ((PortedBoxEnclosure.init
                    (Loudspeaker.ofVals re le 1 qes qms fs vas cms mms bl
                      sd rms) lx ly lz pl psa).stageP f)).mul
                  ((PortedBoxEnclosure.init
                    (Loudspeaker.ofVals re le 1 qes qms fs vas cms mms bl
                      sd rms) lx ly lz pl psa).stageR sf f)).a21 -
                1 / (PortedBoxEnclosure.init
                  (Loudspeaker.ofVals re le 1 qes qms fs vas cms mms bl sd
                    rms) lx ly lz pl
                  psa).calculate_port_impedance_Za2 sf f
                  ((PortedBoxEnclosure.init
                    (Loudspeaker.ofVals re le 1 qes qms fs vas cms mms bl
                      sd rms) lx ly lz pl psa).r_d f)) *
              (1 / (PortedBoxEnclosure.systemMatrix sf
                (PortedBoxEnclosure.init
                  (Loudspeaker.ofVals re le 1 qes qms fs vas cms mms bl sd
                    rms) lx ly lz pl psa) f).a11))) /
          |(20e-6 : ℝ)|)) := by
  have hA : PortedBoxEnclosure.systemMatrix sf
      (PortedBoxEnclosure.init
        (Loudspeaker.ofVals re le w qes qms fs vas cms mms bl sd rms)
        lx ly lz pl psa) f =
      PortedBoxEnclosure.systemMatrix sf
        (PortedBoxEnclosure.init
          (Loudspeaker.ofVals re le 1 qes qms fs vas cms mms bl sd rms)
          lx ly lz pl psa) f := rfl
  have hZa2 : (PortedBoxEnclosure.init
      (Loudspeaker.ofVals re le w qes qms fs vas cms mms bl sd rms)
      lx ly lz pl psa).calculate_port_impedance_Za2 sf f
      ((PortedBoxEnclosure.init
        (Loudspeaker.ofVals re le w qes qms fs vas cms mms bl sd rms)
        lx ly lz pl psa).r_d f) =
      (PortedBoxEnclosure.init
        (Loudspeaker.ofVals re le 1 qes qms fs vas cms mms bl sd rms)
        lx ly lz pl psa).calculate_port_impedance_Za2 sf f
        ((PortedBoxEnclosure.init
          (Loudspeaker.ofVals re le 1 qes qms fs vas cms mms bl sd rms)
          lx ly lz pl psa).r_d f) := rfl
  have hN : (((PortedBoxEnclosure.init
      (Loudspeaker.ofVals re le w qes qms fs vas cms mms bl sd rms)
      lx ly lz pl psa).stageB f).mul
      ((PortedBoxEnclosure.init
        (Loudspeaker.ofVals re le w qes qms fs vas cms mms bl sd rms)
        lx ly lz pl psa).stageP f)).mul
      ((PortedBoxEnclosure.init
        (Loudspeaker.ofVals re le w qes qms fs vas cms mms bl sd rms)
        lx ly lz pl psa).stageR sf f) =
      (((PortedBoxEnclosure.init
        (Loudspeaker.ofVals re le 1 qes qms fs vas cms mms bl sd rms)
        lx ly lz pl psa).stageB f).mul
        ((PortedBoxEnclosure.init
          (Loudspeaker.ofVals re le 1 qes qms fs vas cms mms bl sd rms)
          lx ly lz pl psa).stageP f)).mul
        ((PortedBoxEnclosure.init
          (Loudspeaker.ofVals re le 1 qes qms fs vas cms mms bl sd rms)
          lx ly lz pl psa).stageR sf f) := rfl
  have he : (PortedBoxEnclosure.init
      (Loudspeaker.ofVals re le w qes qms fs vas cms mms bl sd rms)
      lx ly lz pl psa).lsp.e_g = Real.sqrt w := rfl
  simp only [PortedBoxEnclosure.calculate_spl]
  rw [hA, hZa2, hN, he, abs_mul_sqrt_factor]
  congr 1
  ring_nf

/-- Ported-box main SPL is monotone in the nominal-impedance
parameter `z`. -/
theorem ported_spl_z_le (sf : SpecialFuns)
    (re le qes qms fs vas cms mms bl sd rms lx ly lz pl psa f z z' : ℝ)
    (hz : 0 < z) (hzz : z ≤ z') :
    (PortedBoxEnclosure.calculate_spl sf
        (PortedBoxEnclosure.init
          (Loudspeaker.ofVals re le z qes qms fs vas cms mms bl sd rms)
          lx ly lz pl psa) f).1 ≤
      (PortedBoxEnclosure.calculate_spl sf
        (PortedBoxEnclosure.init
          (Loudspeaker.ofVals re le z' qes qms fs vas cms mms bl sd rms)
          lx ly lz pl psa) f).1 := by
  rw [ported_spl_sqrt_z, ported_spl_sqrt_z]
  apply logb_sqrt_scale hz hzz
  positivity

/-- C10: the drive voltage is not a constant but `e_g = √z` derived from
the nominal-impedance input; `z` is required for construction (missing `z`
fails the constructor); and for every topology the returned SPL depends
monotonically on `z` (the pressure scales by `√z`). -/
theorem drive_voltage_sqrt_z (sf : SpecialFuns) :
    (∀ p, p.z = none → Loudspeaker.init p = none) ∧
    (∀ p l, Loudspeaker.init p = some l →
      p.z = some l.Znom ∧ l.e_g = Real.sqrt l.Znom) ∧
    (∀ re le qes qms fs vas cms mms bl sd rms lx ly lz pl psa f z z' : ℝ,
      0 < z → z ≤ z' → 0 < f → 0 ≤ sd →
      OpenAir.calculate_spl sf
          (Loudspeaker.ofVals re le z qes qms fs vas cms mms bl sd rms)
          f ≤
        OpenAir.calculate_spl sf
          (Loudspeaker.ofVals re le z' qes qms fs vas cms mms bl sd rms)
          f ∧
      SealedBoxEnclosure.calculate_spl sf
          (SealedBoxEnclosure.init
            (Loudspeaker.ofVals re le z qes qms fs vas cms mms bl sd rms)
            lx ly lz) f ≤
        SealedBoxEnclosure.calculate_spl sf
          (SealedBoxEnclosure.init
            (Loudspeaker.ofVals re le z' qes qms fs vas cms mms bl sd rms)
            lx ly lz) f ∧
      (PortedBoxEnclosure.calculate_spl sf
          (PortedBoxEnclosure.init
            (Loudspeaker.ofVals re le z qes qms fs vas cms mms bl sd rms)
            lx ly lz pl psa) f).1 ≤
        (PortedBoxEnclosure.calculate_spl sf
          (PortedBoxEnclosure.init
            (Loudspeaker.ofVals re le z' qes qms fs vas cms mms bl sd rms)
            lx ly lz pl psa) f).1) := by
  refine ⟨fun p h => ?_, fun p l h => ?_, ?_⟩
  · unfold Loudspeaker.init
    split
    · simp_all
    · rfl
  · unfold Loudspeaker.init at h
    split at h
    · obtain rfl : _ = l := Option.some.inj h
      simp_all [Loudspeaker.ofVals]
    · exact absurd h (by simp)
  · intro re le qes qms fs vas cms mms bl sd rms lx ly lz pl psa f z z'
      hz hzz hf hsd
    exact ⟨openair_spl_z_le sf re le qes qms fs vas cms mms bl sd rms f
        z z' hz hzz hf hsd,
      sealed_spl_z_le sf re le qes qms fs vas cms mms bl sd rms lx ly lz
        f z z' hz hzz,
      ported_spl_z_le sf re le qes qms fs vas cms mms bl sd rms lx ly lz
        pl psa f z z' hz hzz⟩

/-- Witness for C10: `z` missing fails construction; on the reference
driver the open-air SPL at `f = 100` does not decrease when `z` grows
from 4 to 9. -/
theorem drive_voltage_sqrt_z_witness :
    Loudspeaker.init pNoZ = none ∧
    OpenAir.calculate_spl sfZero
        (Loudspeaker.ofVals 6 0.5 4 0.4 5 40 50 0.5 20 8 200 3) 100 ≤
      OpenAir.calculate_spl sfZero
        (Loudspeaker.ofVals 6 0.5 9 0.4 5 40 50 0.5 20 8 200 3) 100 :=
  ⟨(drive_voltage_sqrt_z sfZero).1 pNoZ rfl,
    ((drive_voltage_sqrt_z sfZero).2.2 6 0.5 0.4 5 40 50 0.5 20 8 200 3
      1 1 1 1 1 100 4 9 (by norm_num) (by norm_num) (by norm_num)
      (by norm_num)).1⟩

end



